import Mathlib

/-!
Verification of the credential and session-token pipeline of the user-account
backend: the in-memory sliding-window rate limiter, the JWT token codec, the
bcrypt password wrapper, and the auth orchestration (register, authenticate,
current-user resolution), shallowly embedded from the Python source
(`backend/api/v1/auth.py`, `backend/core/security.py`,
`backend/services/auth_service.py`, `backend/api/deps.py`,
`backend/repositories/*.py`).

Timestamps (`time.time()` values and token clocks) are modelled as `Int`
seconds: every claim here is uniform in the ordered time domain, and integer
times keep all statements kernel-decidable.
Python exceptions that matter to the claims are modelled explicitly:
`ValueError` (used by the service layer for control flow) and the SQLAlchemy
`IntegrityError` raised when a flush violates a unique constraint.
`HTTPException` is translated by the framework into an HTTP response, so it is
modelled as a normal result (`HttpResult.httpError`), while exceptions that no
handler catches escape as `Except.error`.
-/

/-- Python exceptions relevant to the embedded code paths. -/
inductive PyErr where
  | valueError (msg : String)
  | integrityError (msg : String)
deriving DecidableEq, Repr

deriving instance DecidableEq for Except

/-! ## Rate limiter (`backend/api/v1/auth.py`) -/

/-- The module-level `_rate_limit_store : defaultdict(list)`, mapping a key to
the ordered list of recorded request timestamps. -/
abbrev RateStore := List (String × List Int)

/-- Dictionary lookup with `defaultdict(list)` semantics: a missing key reads
as the empty list. -/
def storeGet (s : RateStore) (k : String) : List Int :=
  match s.find? (fun p => p.1 == k) with
  | some p => p.2
  | none => []

/-- Dictionary assignment `store[k] = v` (replaces the first binding of `k`,
or appends a fresh one). -/
def storeSet (s : RateStore) (k : String) (v : List Int) : RateStore :=
  match s with
  | [] => [(k, v)]
  | (k', v') :: rest =>
      if k' == k then (k, v) :: rest else (k', v') :: storeSet rest k v

/-- `_check_rate_limit(key, max_requests, window_seconds)` as a pure state
transformer over the store, with `now` made explicit.  Mirrors the source:
compute `window_start = now - window_seconds`, keep only timestamps
`t > window_start`, write the pruned list back; if the pruned count is
`>= max_requests` return `True` (limited) without recording, otherwise append
`now` (the Python code appends to the same list object just stored) and
return `False`. -/
def _check_rate_limit (store : RateStore) (now : Int) (key : String)
    (max_requests window_seconds : Nat) : Bool × RateStore :=
  let window_start := now - (window_seconds : Int)
  let requests := storeGet store key
  let recent_requests := requests.filter (fun t => window_start < t)
  if max_requests ≤ recent_requests.length then
    (true, storeSet store key recent_requests)
  else
    (false, storeSet store key (recent_requests ++ [now]))

/-- The sliding-window algorithm exactly as the specification words it, acting
on the record for one key: (1) `window_start = now - window_seconds`;
(2) drop all timestamps `<= window_start`; (3) if the remaining count is
`>= max_requests`, limited and nothing recorded; (4) else append `now` and not
limited.  Stated separately from `_check_rate_limit` so the two can be
compared. -/
def spec_check_and_record (record : List Int) (now : Int)
    (max_requests window_seconds : Nat) : Bool × List Int :=
  let window_start := now - (window_seconds : Int)
  let kept := record.filter (fun t => ¬ (t ≤ window_start))
  if max_requests ≤ kept.length then
    (true, kept)
  else
    (false, kept ++ [now])

/-- Run `_check_rate_limit` over a list of timestamps for the fixed key `"k"`
with the registration policy `max=3, window=60`, collecting the limited-flags
in order. -/
def rlRun : List Int → RateStore → List Bool × RateStore
  | [], s => ([], s)
  | t :: rest, s =>
      let r := _check_rate_limit s t "k" 3 60
      let rec' := rlRun rest r.2
      (r.1 :: rec'.1, rec'.2)

/-- The four rate-limited endpoints. -/
inductive Endpoint where
  | registerEp
  | loginEp
  | passwordChangeEp
  | themeUpdateEp
deriving DecidableEq, Repr

/-- The rate-limit key each endpoint passes down: `check_rate_limit` uses
`f"{ip}:{endpoint}"` only when an `endpoint` tag is given, and only the
change-password call site passes one (`endpoint="password_change"`); register,
login and theme-update call it with no tag, so their key is the bare client
identity. -/
def endpointKey (ip : String) : Endpoint → String
  | .registerEp => ip
  | .loginEp => ip
  | .passwordChangeEp => ip ++ ":" ++ "password_change"
  | .themeUpdateEp => ip

/-- The `(max_requests, window_seconds)` pair each call site passes:
register 3/60, login 5/60, password-change 3/60, theme-update 10/60. -/
def endpointLimit : Endpoint → Nat × Nat
  | .registerEp => (3, 60)
  | .loginEp => (5, 60)
  | .passwordChangeEp => (3, 60)
  | .themeUpdateEp => (10, 60)

/-- `check_rate_limit` as invoked by an endpoint: build the key, look up the
policy, and run `_check_rate_limit`.  Returns the limited flag (the caller
raises HTTP 429 when it is true) and the updated store. -/
def check_rate_limit (store : RateStore) (now : Int) (ip : String)
    (e : Endpoint) : Bool × RateStore :=
  _check_rate_limit store now (endpointKey ip e)
    (endpointLimit e).1 (endpointLimit e).2

/-- Run a sequence of `(time, endpoint)` checks for one client, collecting the
limited-flags. -/
def epRun (ip : String) : List (Int × Endpoint) → RateStore → List Bool × RateStore
  | [], s => ([], s)
  | (t, e) :: rest, s =>
      let r := check_rate_limit s t ip e
      let rec' := epRun ip rest r.2
      (r.1 :: rec'.1, rec'.2)

/-! ## Token codec (`backend/core/security.py` with the `jose` JWT library) -/

/-- The claim set a token of this service carries: `create_access_token` is
always called with `data = {"sub": str(user.id)}` and adds the `exp` claim
itself, so a payload is a subject string plus an expiry time. -/
structure JWTPayload where
  sub : String
  exp : Int
deriving DecidableEq, Repr

/-- An encoded JWT: the signed payload together with its HMAC signature over
the payload.  A well-formed encoded string determines exactly these parts, and
flipping a bit of the string changes exactly one of them. -/
structure JWToken where
  payload : JWTPayload
  sig : Nat
deriving DecidableEq, Repr

/-- `jwt.encode(payload, SECRET_KEY, ALGORITHM)`: sign the payload.  `mac` is
the HMAC keyed with the server secret, kept abstract. -/
def jwt_encode (mac : JWTPayload → Nat) (p : JWTPayload) : JWToken :=
  ⟨p, mac p⟩

/-- `jwt.decode(token, SECRET_KEY, [ALGORITHM])`: succeeds with the payload
iff the signature verifies and the token is not expired (`jose` treats a token
as expired exactly when `exp < now`); every failure raises `JWTError`, which
the caller catches, so it is modelled as `none`. -/
def jwt_decode (mac : JWTPayload → Nat) (now : Int) (t : JWToken) :
    Option JWTPayload :=
  if t.sig = mac t.payload ∧ ¬ (t.payload.exp < now) then some t.payload
  else none

/-- `create_access_token(data, expires_delta)`: expiry is `now` plus the given
delta, or plus `ACCESS_TOKEN_EXPIRE_MINUTES = 30` minutes when no delta is
given; the resulting claim set is signed with the server secret. -/
def create_access_token (mac : JWTPayload → Nat) (now : Int) (sub : String)
    (expires_delta : Option Int) : JWToken :=
  let expire := now + expires_delta.getD (30 * 60)
  jwt_encode mac ⟨sub, expire⟩

/-- `decode_access_token(token)`: `jwt.decode` inside `try/except JWTError:
return None` — the payload when valid, `None` on any failure. -/
def decode_access_token (mac : JWTPayload → Nat) (now : Int) (t : JWToken) :
    Option JWTPayload :=
  jwt_decode mac now t

/-! ## Password hasher (`backend/core/security.py` with the `bcrypt` library) -/

/-- The bcrypt primitive, kept abstract: `hashpw password salt` is the digest
bcrypt computes for a password under a given salt, and `extractSalt?` is
bcrypt's parse of the salt embedded in a digest string — `none` exactly when
the digest is malformed (not a well-formed bcrypt output). -/
structure BcryptPrim where
  hashpw : String → String → String
  extractSalt? : String → Option String

/-- `bcrypt.checkpw(plain, hashed)`: modelled from the bcrypt library's
documented behaviour — re-hash `plain` under the salt embedded in `hashed`
and compare, but raise `ValueError("Invalid salt")` when `hashed` is not a
well-formed bcrypt digest. -/
def bcrypt_checkpw (B : BcryptPrim) (plain hashed : String) :
    Except PyErr Bool :=
  match B.extractSalt? hashed with
  | none => .error (.valueError "Invalid salt")
  | some salt => .ok (B.hashpw plain salt == hashed)

/-- `verify_password(plain_password, hashed_password)`: a direct call to
`bcrypt.checkpw` with no exception handling of its own, so whatever `checkpw`
raises propagates to the caller. -/
def verify_password (B : BcryptPrim) (plain_password hashed_password : String) :
    Except PyErr Bool :=
  bcrypt_checkpw B plain_password hashed_password

/-- `hash_password(password)`: `bcrypt.hashpw(password, bcrypt.gensalt())`,
with the freshly generated random salt made an explicit argument. -/
def hash_password (B : BcryptPrim) (salt password : String) : String :=
  B.hashpw password salt

/-! ## User model and repository (`backend/models/user.py`,
`backend/repositories/user.py`, `backend/repositories/base.py`) -/

/-- The `users` row fields the embedded code paths read or write.  `email` and
`username` carry `unique=True` constraints in the model. -/
structure User where
  id : Nat
  email : String
  username : String
  hashed_password : String
  is_active : Bool
  theme_preference : String
deriving DecidableEq, Repr

/-- The users table, as the ordered list of its rows. -/
abbrev Db := List User

/-- `UserRepository.get_by_email`: `SELECT ... WHERE email = e`. -/
def get_by_email (db : Db) (e : String) : Option User :=
  db.find? (fun u => u.email == e)

/-- `UserRepository.get_by_username`: `SELECT ... WHERE username = n`. -/
def get_by_username (db : Db) (n : String) : Option User :=
  db.find? (fun u => u.username == n)

/-- `BaseRepository.get_by_id`: `SELECT ... WHERE id = i`. -/
def get_by_id (db : Db) (i : Nat) : Option User :=
  db.find? (fun u => u.id == i)

/-- `UserRepository.create_user` followed by `BaseRepository.create`'s
`session.flush()`: hash the password, build the row (`is_active=True`,
`theme_preference="system"` are the model defaults) and flush it.  The flush
enforces the table's unique constraints: if any existing row already has this
email or username, SQLAlchemy raises `IntegrityError`. -/
def create_user (B : BcryptPrim) (salt : String) (db : Db)
    (email username password : String) : Except PyErr (User × Db) :=
  let user : User :=
    { id := db.length + 1
      email := email
      username := username
      hashed_password := hash_password B salt password
      is_active := true
      theme_preference := "system" }
  if db.any (fun u => u.email == email || u.username == username) then
    .error (.integrityError "UNIQUE constraint failed: users.email, users.username")
  else
    .ok (user, db ++ [user])

/-! ## Auth service (`backend/services/auth_service.py`) -/

/-- `authenticate_user(db, username, password)`: look the user up by username;
`None` when absent; otherwise verify the password against the stored hash and
return `None` when verification fails, the user when it succeeds.  An
exception raised by `verify_password` propagates. -/
def authenticate_user (B : BcryptPrim) (db : Db) (username password : String) :
    Except PyErr (Option User) :=
  match get_by_username db username with
  | none => .ok none
  | some user =>
      match verify_password B password user.hashed_password with
      | .error e => .error e
      | .ok b => if b then .ok (some user) else .ok none

/-- `register_user(db, user_data)`: pre-check the email, then the username,
raising `ValueError` with the respective message; then create the row.  To
expose the duplicate-key race the database state is split: `preDb` is the
state the two pre-check `SELECT`s observe, `flushDb` the state the unique
constraint sees at flush time (another request may have committed in
between); a race-free call passes the same state twice. -/
def register_user (B : BcryptPrim) (salt : String) (preDb flushDb : Db)
    (email username password : String) : Except PyErr User :=
  if (get_by_email preDb email).isSome then
    .error (.valueError "Email already registered")
  else if (get_by_username preDb username).isSome then
    .error (.valueError "Username already taken")
  else
    match create_user B salt flushDb email username password with
    | .ok r => .ok r.1
    | .error e => .error e

/-! ## Endpoint layer (`backend/api/v1/auth.py`, `backend/api/deps.py`) -/

/-- The transport-level outcome of a request: either a response the handler
produced, or an `HTTPException` the framework turned into an error response.
Both carry a status code; the exception also carries its `detail` string,
which FastAPI sends in the response body. -/
inductive HttpResult where
  | ok (status : Nat)
  | httpError (status : Nat) (detail : String)
deriving DecidableEq, Repr

/-- `register` endpoint: rate-check first (429 when limited), then
`register_user` inside `try/except ValueError` mapped to a 409 Conflict whose
detail is `str(e)`; success is 201.  Any exception that is not a `ValueError`
(in particular SQLAlchemy's `IntegrityError` from the flush) is not caught by
the handler and escapes as a raw error.  Returns the updated rate store as
well. -/
def registerEndpoint (B : BcryptPrim) (salt : String) (store : RateStore)
    (now : Int) (ip : String) (preDb flushDb : Db)
    (email username password : String) :
    Except PyErr HttpResult × RateStore :=
  let rc := _check_rate_limit store now ip 3 60
  if rc.1 then
    (.ok (.httpError 429 "Rate limit exceeded. Please try again later."), rc.2)
  else
    match register_user B salt preDb flushDb email username password with
    | .ok _ => (.ok (.ok 201), rc.2)
    | .error (.valueError m) => (.ok (.httpError 409 m), rc.2)
    | .error e => (.error e, rc.2)

/-- Python's `int(s)` on a string: the denoted number when `s` is all digits
and nonempty, `none` (a raised `ValueError`) otherwise.  (Negative subjects do
not occur; user ids are naturals.) -/
def pyInt? (s : String) : Option Nat :=
  if s.data ≠ [] ∧ s.data.all (fun c => c.isDigit) then
    some (s.data.foldl (fun n c => 10 * n + (c.toNat - 48)) 0)
  else none

/-- The outcome of resolving the current user: the user, an `HTTPException`
(status, detail), or an uncaught Python exception. -/
inductive AuthOutcome where
  | ok (u : User)
  | httpError (status : Nat) (detail : String)
  | exception (e : PyErr)
deriving DecidableEq, Repr

/-- The dependency chain `get_current_user_id` then `get_current_user` of
`backend/api/deps.py`, composed: 401 "Not authenticated" when the cookie is
missing; decode the token and fail 401 "Invalid token" when decoding returns
`None` or the `sub` claim is falsy; convert `sub` with `int(...)` (a
non-numeric subject makes `int` raise an uncaught `ValueError`); then 401
"User not found" when no row has that id and 401 "User is inactive" when the
row is inactive; otherwise the user. -/
def get_current_user (mac : JWTPayload → Nat) (now : Int) (db : Db)
    (cookie : Option JWToken) : AuthOutcome :=
  match cookie with
  | none => .httpError 401 "Not authenticated"
  | some tok =>
      match decode_access_token mac now tok with
      | none => .httpError 401 "Invalid token"
      | some payload =>
          if payload.sub == "" then .httpError 401 "Invalid token"
          else
            match pyInt? payload.sub with
            | none => .exception (.valueError "invalid literal for int() with base 10")
            | some uid =>
                match get_by_id db uid with
                | none => .httpError 401 "User not found"
                | some user =>
                    if user.is_active then .ok user
                    else .httpError 401 "User is inactive"

/-! ## Operation order (traces)

FastAPI resolves a handler's dependencies before its body runs, so for the
endpoints that depend on `get_current_user` the token is decoded and the user
row fetched before the body's `check_rate_limit` call.  Each pipeline below
re-runs the embedded functions above and logs, in execution order, the
operations the claims talk about. -/

/-- The observable operations of a request. -/
inductive Ev where
  | rateCheck
  | tokenResolve
  | dbLookup
  | pwVerify
  | pwHash
  | persistWrite
deriving DecidableEq, Repr

/-- Operations `get_current_user` (the dependency) performs, in order:
decoding happens only when a cookie is present, the id lookup only when the
token decoded to a usable subject. -/
def get_current_user_trace (mac : JWTPayload → Nat) (now : Int)
    (cookie : Option JWToken) : List Ev :=
  match cookie with
  | none => []
  | some tok =>
      .tokenResolve ::
        match decode_access_token mac now tok with
        | none => []
        | some payload =>
            if payload.sub == "" then []
            else
              match pyInt? payload.sub with
              | none => []
              | some _ => [.dbLookup]

/-- `register` handler: the body's rate check comes first; when not limited,
the two pre-check lookups, then hash and flush on the successful path. -/
def registerTrace (store : RateStore) (now : Int)
    (ip : String) (db : Db) (email username : String) : List Ev :=
  let rc := _check_rate_limit store now ip 3 60
  .rateCheck ::
    if rc.1 then []
    else
      .dbLookup ::
        if (get_by_email db email).isSome then []
        else
          .dbLookup ::
            if (get_by_username db username).isSome then []
            else [.pwHash, .persistWrite]

/-- `login` handler: rate check first; when not limited,
`authenticate_user`'s username lookup, then hash verification only when a row
was found. -/
def loginTrace (store : RateStore) (now : Int)
    (ip : String) (db : Db) (username : String) : List Ev :=
  let rc := _check_rate_limit store now ip 5 60
  .rateCheck ::
    if rc.1 then []
    else
      .dbLookup ::
        match get_by_username db username with
        | none => []
        | some _ => [.pwVerify]

/-- `change_password` handler: the `current_user` dependency (token decode and
id lookup) runs before the body; the body then rate-checks under the key
`ip + ":password_change"`, verifies the current password, and on success
hashes and persists the new one. -/
def changePasswordTrace (B : BcryptPrim) (mac : JWTPayload → Nat)
    (store : RateStore) (now : Int) (ip : String) (db : Db)
    (cookie : Option JWToken) (current_password : String) : List Ev :=
  get_current_user_trace mac now cookie ++
    match get_current_user mac now db cookie with
    | .ok user =>
        let rc := _check_rate_limit store now (ip ++ ":" ++ "password_change") 3 60
        .rateCheck ::
          if rc.1 then []
          else
            .pwVerify ::
              match verify_password B current_password user.hashed_password with
              | .ok true => [.pwHash, .persistWrite]
              | _ => []
    | _ => []

/-- `update_theme_preference` handler: the `current_user` dependency runs
before the body; the body rate-checks under the bare client identity and, when
not limited, persists the new preference. -/
def themeUpdateTrace (mac : JWTPayload → Nat) (store : RateStore) (now : Int)
    (ip : String) (db : Db) (cookie : Option JWToken) : List Ev :=
  get_current_user_trace mac now cookie ++
    match get_current_user mac now db cookie with
    | .ok _ =>
        let rc := _check_rate_limit store now ip 10 60
        .rateCheck :: if rc.1 then [] else [.persistWrite]
    | _ => []



/-! ## Concrete fixtures for witnesses and counterexamples -/

/-- A concrete bcrypt primitive for evaluating the embedding on inputs: the
salt is the fixed prefix `"$2b$"`, a digest is this salt followed by the
password, and a digest is well-formed exactly when it starts with the salt
prefix. -/
def toyBcrypt : BcryptPrim where
  hashpw := fun pw salt => salt ++ pw
  extractSalt? := fun d =>
    if d.data.take 4 = "$2b$".data then some "$2b$" else none

/-- A concrete HMAC for evaluating the token codec on inputs. -/
def toyMac : JWTPayload → Nat :=
  fun p => p.sub.length + p.exp.natAbs

/-- A registered, active user, as `register_user` would create it with the
password `"pw12345678"`. -/
def alice : User :=
  { id := 1
    email := "a@x.com"
    username := "alice"
    hashed_password := "$2b$pw12345678"
    is_active := true
    theme_preference := "system" }

/-- A deactivated user. -/
def bobInactive : User :=
  { id := 2
    email := "b@x.com"
    username := "bob"
    hashed_password := "$2b$pw12345678"
    is_active := false
    theme_preference := "system" }

/-- A token for `alice` (subject `"1"`), issued at time 0 with a 100-second
expiry. -/
def tokAlice : JWToken := create_access_token toyMac 0 "1" (some 100)

/-- Three register checks then three login checks from one client, all within
one minute. -/
def c10Calls : List (Int × Endpoint) :=
  [(0, .registerEp), (1, .registerEp), (2, .registerEp),
   (3, .loginEp), (4, .loginEp), (5, .loginEp)]

/-! ## Theorems -/

/-- Writing a key's record and reading the same key back yields the record
just written. -/
theorem storeGet_storeSet (s : RateStore) (k : String) (v : List Int) :
    storeGet (storeSet s k v) k = v := by
  induction s with
  | nil => simp [storeGet, storeSet]
  | cons p rest ih =>
      rcases p with ⟨k', v'⟩
      by_cases h : k' == k
      · simp [storeGet, storeSet, h]
      · simp only [storeSet, h, if_false]
        simpa [storeGet, h] using ih

/-- **C1.** `_check_rate_limit` behaves exactly as the specified
sliding-window algorithm for every key, limit and window: the limited-flag
and the stored record for the key are those of `spec_check_and_record`
(drop timestamps `≤ now − window_seconds`; limited without recording when the
remaining count reaches `max_requests`; otherwise append `now`), and in the
concrete scenario with `max=3, window=60` three calls on one key within one
second are not limited, the fourth is limited, and a call more than 60
seconds after the first is not limited again. -/
theorem check_rate_limit_matches_spec_algorithm :
    (∀ (store : RateStore) (now : Int) (key : String)
        (max_requests window_seconds : Nat),
      _check_rate_limit store now key max_requests window_seconds =
        ((spec_check_and_record (storeGet store key) now max_requests
            window_seconds).1,
         storeSet store key
           (spec_check_and_record (storeGet store key) now max_requests
              window_seconds).2))
    ∧ (rlRun [0, 0, 0, 0, 61] []).1 = [false, false, false, true, false] := by
  constructor
  · intro store now key max_requests window_seconds
    simp only [_check_rate_limit, spec_check_and_record, not_le]
    split <;> rfl
  · decide

/-- **C8 counterexample.** The stored window is only pruned lazily: after a
single recorded call on key `"k"` at time 0 with a 60-second window, nothing
touches the store again, so at time 100 the record for `"k"` still contains
the timestamp 0, which is older than `now − window_seconds = 40`.  The
invariant therefore does not hold continuously between calls. -/
theorem rate_window_stale_between_calls :
    (0 : Int) ∈ storeGet (_check_rate_limit [] 0 "k" 3 60).2 "k"
    ∧ (0 : Int) < 100 - 60 := by
  decide

/-- **C8 (amended).** Immediately after a `_check_rate_limit` call on a key
with a positive window, the record stored for that key contains no timestamp
`≤ now − window_seconds`: every remaining timestamp is strictly newer than
the window start. -/
theorem rate_window_fresh_after_check (store : RateStore) (now : Int)
    (key : String) (max_requests window_seconds : Nat)
    (hw : 0 < window_seconds) :
    ∀ t ∈ storeGet
        (_check_rate_limit store now key max_requests window_seconds).2 key,
      now - (window_seconds : Int) < t := by
  intro t ht
  have hw' : (0 : Int) < (window_seconds : Int) := by exact_mod_cast hw
  simp only [_check_rate_limit] at ht
  split at ht <;> rw [storeGet_storeSet] at ht
  · exact of_decide_eq_true (List.mem_filter.1 ht).2
  · rcases List.mem_append.1 ht with h | h
    · exact of_decide_eq_true (List.mem_filter.1 h).2
    · rw [List.mem_singleton.1 h]
      exact sub_lt_self now hw'

/-- **C8 witness.** Instantiating the amended invariant after the call at
time 0 on the empty store: the single stored timestamp 0 is newer than
`0 − 60`. -/
theorem rate_window_fresh_after_check_witness :
    (0 : Int) - ((60 : Nat) : Int) < 0 :=
  rate_window_fresh_after_check [] 0 "k" 3 60 (by decide) 0 (by decide)

/-- **C2.** The token codec round-trips and rejects tampering: a token issued
for subject `s` with expiry `ttl` decodes, at any time strictly before the
expiry, to a claim set whose subject is `s`; at any time strictly after the
expiry it decodes to `None`; a token whose payload part equals the issued one
but whose signature part differs decodes to `None`, and a token whose
signature part equals the issued one but whose payload MACs differently (as
any single-bit change of the payload does, absent an HMAC collision) decodes
to `None` — so a single-bit-flipped token, which changes exactly one of the
two parts, is rejected; and every token failing the signature-and-expiry
check yields the one same opaque outcome `None`, never a distinguishable
variant and never an exception (`decode_access_token` catches `JWTError` and
is total). -/
theorem token_issue_validate_roundtrip (mac : JWTPayload → Nat)
    (now : Int) (s : String) (ttl : Int) (now1 now2 now3 : Int)
    (t3 t4 u : JWToken) :
    (now1 < now + ttl →
      decode_access_token mac now1 (create_access_token mac now s (some ttl))
        = some ⟨s, now + ttl⟩)
    ∧ (now + ttl < now2 →
      decode_access_token mac now2 (create_access_token mac now s (some ttl))
        = none)
    ∧ (t3.payload = (create_access_token mac now s (some ttl)).payload →
      t3.sig ≠ (create_access_token mac now s (some ttl)).sig →
      decode_access_token mac now3 t3 = none)
    ∧ (t4.sig = (create_access_token mac now s (some ttl)).sig →
      mac t4.payload ≠ mac (create_access_token mac now s (some ttl)).payload →
      decode_access_token mac now3 t4 = none)
    ∧ (¬ (u.sig = mac u.payload ∧ ¬ (u.payload.exp < now3)) →
      decode_access_token mac now3 u = none) := by
  refine ⟨?_, ?_, ?_, ?_, ?_⟩
  · intro h
    simp only [decode_access_token, jwt_decode, create_access_token, jwt_encode,
      Option.getD_some]
    split
    · rfl
    · next hcond => exact absurd ⟨by trivial, by omega⟩ hcond
  · intro h
    simp only [decode_access_token, jwt_decode, create_access_token, jwt_encode,
      Option.getD_some]
    split
    · next hcond => exact absurd h hcond.2
    · rfl
  · intro hp hs
    simp only [create_access_token, jwt_encode, Option.getD_some] at hp hs
    simp only [decode_access_token, jwt_decode]
    split
    · next hcond => exact absurd (hcond.1.trans (by rw [hp])) hs
    · rfl
  · intro hs hm
    simp only [create_access_token, jwt_encode, Option.getD_some] at hs hm
    simp only [decode_access_token, jwt_decode]
    split
    · next hcond => exact absurd (hcond.1.symm.trans hs) hm
    · rfl
  · intro h
    simp only [decode_access_token, jwt_decode]
    exact if_neg h

/-- **C2 witness.** The round-trip and tamper-rejection theorem evaluated with
the concrete HMAC `toyMac` at subject `"1"`, issue time 0, `ttl = 100`:
decoding at time 50 yields the subject, at time 150 yields `None`, a
signature-corrupted copy and a payload-corrupted copy both yield `None`, and
an arbitrary failing token yields `None`. -/
theorem token_issue_validate_roundtrip_witness :
    decode_access_token toyMac 50 (create_access_token toyMac 0 "1" (some 100))
      = some ⟨"1", 0 + 100⟩
    ∧ decode_access_token toyMac 150
        (create_access_token toyMac 0 "1" (some 100)) = none
    ∧ decode_access_token toyMac 50 ⟨⟨"1", 100⟩, 999⟩ = none
    ∧ decode_access_token toyMac 50 ⟨⟨"22", 100⟩, 101⟩ = none
    ∧ decode_access_token toyMac 50 ⟨⟨"1", 100⟩, 0⟩ = none := by
  obtain ⟨h1, h2, h3, h4, h5⟩ :=
    token_issue_validate_roundtrip toyMac 0 "1" 100 50 150 50
      ⟨⟨"1", 100⟩, 999⟩ ⟨⟨"22", 100⟩, 101⟩ ⟨⟨"1", 100⟩, 0⟩
  exact ⟨h1 (by decide), h2 (by decide), h3 (by decide) (by decide),
    h4 (by decide) (by decide), h5 (by decide)⟩

/-- **C3.** Registration conflicts are reported deterministically, email
first: when the rate check passes, a request whose email is already present
fails with 409 Conflict reporting `"Email already registered"` regardless of
whether the username is also taken (in particular when both are taken the
reported cause is always the email, never the username), and only a request
whose email is free but whose username is taken fails with 409 Conflict
reporting `"Username already taken"`. -/
theorem register_conflict_email_checked_first (B : BcryptPrim) (salt : String)
    (store : RateStore) (now : Int) (ip : String) (db : Db)
    (e1 n1 p1 e2 n2 p2 : String)
    (hrl : (_check_rate_limit store now ip 3 60).1 = false)
    (h1 : (get_by_email db e1).isSome = true)
    (h2e : (get_by_email db e2).isSome = false)
    (h2n : (get_by_username db n2).isSome = true) :
    (registerEndpoint B salt store now ip db db e1 n1 p1).1
      = .ok (.httpError 409 "Email already registered")
    ∧ (registerEndpoint B salt store now ip db db e2 n2 p2).1
      = .ok (.httpError 409 "Username already taken") := by
  constructor
  · simp [registerEndpoint, register_user, hrl, h1]
  · simp [registerEndpoint, register_user, hrl, h2e, h2n]

/-- **C3 witness.** With `alice` registered, both the email and the username
of a request reusing `"a@x.com"`/`"alice"` are taken and the reported cause is
the email; a request with fresh email `"b@x.com"` but the taken username
`"alice"` reports the username. -/
theorem register_conflict_email_checked_first_witness :
    (registerEndpoint toyBcrypt "$2b$" [] 0 "ip" [alice] [alice]
        "a@x.com" "alice" "pw12345678").1
      = .ok (.httpError 409 "Email already registered")
    ∧ (registerEndpoint toyBcrypt "$2b$" [] 0 "ip" [alice] [alice]
        "b@x.com" "alice" "pw12345678").1
      = .ok (.httpError 409 "Username already taken") :=
  register_conflict_email_checked_first toyBcrypt "$2b$" [] 0 "ip" [alice]
    "a@x.com" "alice" "pw12345678" "b@x.com" "alice" "pw12345678"
    (by decide) (by decide) (by decide) (by decide)

/-- **C4.** Evaluation at the duplicate-key race: the pre-check runs against a
state with no users (so it passes), but by flush time a concurrent request
has inserted `alice`, and the unique constraint rejects the insert with
`IntegrityError`.  The `register` handler catches only `ValueError`, so the
raw storage error escapes uncaught instead of being translated into a 409
Conflict — the code does not implement the claimed translation. -/
theorem register_race_surfaces_integrity_error :
    (registerEndpoint toyBcrypt "$2b$" [] 0 "ip" [] [alice]
        "a@x.com" "bob" "pw12345678").1
      = .error (.integrityError
          "UNIQUE constraint failed: users.email, users.username")
    ∧ (registerEndpoint toyBcrypt "$2b$" [] 0 "ip" [] [alice]
        "a@x.com" "bob" "pw12345678").1
      ≠ .ok (.httpError 409 "Email already registered") := by
  decide

/-- **C6.** Evaluation at a malformed digest: `verify_password` is a bare
call to `bcrypt.checkpw`, which raises `ValueError("Invalid salt")` on a
digest that is not a well-formed bcrypt output; the function has no handler,
so it raises instead of returning `false` — contradicting the claim (and the
function's own docstring, which promises a boolean). -/
theorem verify_password_raises_on_malformed_digest :
    verify_password toyBcrypt "pw12345678" "notahash"
      = .error (.valueError "Invalid salt")
    ∧ verify_password toyBcrypt "pw12345678" "notahash" ≠ .ok false := by
  decide

/-- **C7.** `authenticate_user` looks the user up by username, not email: a
query that matches no username yields `none` even when it equals some user's
email; an absent username yields `.ok none`; a present username whose
password verification returns `false` also yields `.ok none`; and the outward
signals of the absent-user case and the wrong-password case are identical, so
a caller cannot distinguish them from the result. -/
theorem authenticate_user_opaque_failure (B : BcryptPrim) (db : Db)
    (q pw0 n1 pw1 n2 pw2 : String) (u2 : User)
    (hq : ∀ u ∈ db, u.username ≠ q)
    (h1 : get_by_username db n1 = none)
    (h2a : get_by_username db n2 = some u2)
    (h2b : verify_password B pw2 u2.hashed_password = .ok false) :
    authenticate_user B db q pw0 = .ok none
    ∧ authenticate_user B db n1 pw1 = .ok none
    ∧ authenticate_user B db n2 pw2 = .ok none
    ∧ authenticate_user B db n1 pw1 = authenticate_user B db n2 pw2 := by
  have hqnone : get_by_username db q = none := by
    rw [get_by_username, List.find?_eq_none]
    intro u hu
    simpa using hq u hu
  refine ⟨?_, ?_, ?_, ?_⟩
  · simp [authenticate_user, hqnone]
  · simp [authenticate_user, h1]
  · simp [authenticate_user, h2a, h2b]
  · simp [authenticate_user, h1, h2a, h2b]

/-- **C7 witness.** With only `alice` (email `"a@x.com"`, username
`"alice"`) registered: querying by her email authenticates nobody, the
username `"nobody"` is absent, and `"alice"` with the wrong password fails
verification — all three give the identical `.ok none`. -/
theorem authenticate_user_opaque_failure_witness :
    authenticate_user toyBcrypt [alice] "a@x.com" "pw12345678" = .ok none
    ∧ authenticate_user toyBcrypt [alice] "nobody" "pw12345678" = .ok none
    ∧ authenticate_user toyBcrypt [alice] "alice" "wrongpass" = .ok none
    ∧ authenticate_user toyBcrypt [alice] "nobody" "pw12345678"
      = authenticate_user toyBcrypt [alice] "alice" "wrongpass" :=
  authenticate_user_opaque_failure toyBcrypt [alice] "a@x.com" "pw12345678"
    "nobody" "pw12345678" "alice" "wrongpass" alice
    (by decide) (by decide) (by decide) (by decide)

/-- **C5 counterexample.** The user-missing and user-inactive failures are
distinguishable by the caller: holding the same structurally valid, unexpired
token for subject `"1"`, resolution against an empty user table fails with
401 detail `"User not found"`, while resolution against a table whose user 1
is inactive fails with 401 detail `"User is inactive"` — two different
outcomes, so the claimed indistinguishability does not hold. -/
theorem resolve_session_signals_distinguishable :
    get_current_user toyMac 50 [] (some tokAlice)
      = .httpError 401 "User not found"
    ∧ get_current_user toyMac 50
        [{ alice with is_active := false }] (some tokAlice)
      = .httpError 401 "User is inactive"
    ∧ AuthOutcome.httpError 401 "User not found"
      ≠ AuthOutcome.httpError 401 "User is inactive" := by
  decide

/-- **C5 (amended).** `get_current_user` fails with status 401
(Unauthenticated) when the token is invalid, when the subject resolves to no
existing user, and when the resolved user is inactive; the user-missing and
user-inactive cases share the status code 401 but carry different detail
strings (`"User not found"` vs `"User is inactive"`), so they are
distinguishable by the caller. -/
theorem resolve_session_unauthenticated_cases (mac : JWTPayload → Nat)
    (now : Int) (db : Db) (tok1 tok2 tok3 : JWToken) (p2 p3 : JWTPayload)
    (uid2 uid3 : Nat) (u3 : User)
    (h1 : decode_access_token mac now tok1 = none)
    (h2a : decode_access_token mac now tok2 = some p2)
    (h2s : (p2.sub == "") = false)
    (h2b : pyInt? p2.sub = some uid2)
    (h2c : get_by_id db uid2 = none)
    (h3a : decode_access_token mac now tok3 = some p3)
    (h3s : (p3.sub == "") = false)
    (h3b : pyInt? p3.sub = some uid3)
    (h3c : get_by_id db uid3 = some u3)
    (h3d : u3.is_active = false) :
    get_current_user mac now db (some tok1) = .httpError 401 "Invalid token"
    ∧ get_current_user mac now db (some tok2)
      = .httpError 401 "User not found"
    ∧ get_current_user mac now db (some tok3)
      = .httpError 401 "User is inactive"
    ∧ "User not found" ≠ "User is inactive" := by
  refine ⟨?_, ?_, ?_, by decide⟩
  · simp [get_current_user, h1]
  · simp [get_current_user, h2a, h2s, h2b, h2c]
  · simp [get_current_user, h3a, h3s, h3b, h3c, h3d]

/-- **C5 witness.** The amended theorem instantiated concretely: a
signature-corrupted token is rejected as `"Invalid token"`; `tokAlice`
(subject `"1"`) against a table holding only the inactive user 2 gives
`"User not found"`; a token for subject `"2"` against the same table gives
`"User is inactive"`. -/
theorem resolve_session_unauthenticated_cases_witness :
    get_current_user toyMac 50 [bobInactive] (some ⟨⟨"1", 100⟩, 999⟩)
      = .httpError 401 "Invalid token"
    ∧ get_current_user toyMac 50 [bobInactive] (some tokAlice)
      = .httpError 401 "User not found"
    ∧ get_current_user toyMac 50 [bobInactive]
        (some (create_access_token toyMac 0 "2" (some 100)))
      = .httpError 401 "User is inactive"
    ∧ "User not found" ≠ "User is inactive" :=
  resolve_session_unauthenticated_cases toyMac 50 [bobInactive]
    ⟨⟨"1", 100⟩, 999⟩ tokAlice (create_access_token toyMac 0 "2" (some 100))
    ⟨"1", 0 + 100⟩ ⟨"2", 0 + 100⟩ 1 2 bobInactive
    (by decide) (by decide) (by decide) (by decide) (by decide)
    (by decide) (by decide) (by decide) (by decide) (by decide)

/-- The `get_current_user` dependency performs only token decoding and the
user lookup — no password verification, hashing, or persistence write. -/
theorem dep_trace_no_password_work (mac : JWTPayload → Nat) (now : Int)
    (cookie : Option JWToken) :
    Ev.pwVerify ∉ get_current_user_trace mac now cookie
    ∧ Ev.pwHash ∉ get_current_user_trace mac now cookie
    ∧ Ev.persistWrite ∉ get_current_user_trace mac now cookie := by
  unfold get_current_user_trace
  rcases cookie with _ | tok
  · simp
  · cases hdec : decode_access_token mac now tok with
    | none => simp [hdec]
    | some p =>
        by_cases hs : p.sub == ""
        · simp [hdec, hs]
        · cases hn : pyInt? p.sub with
          | none => simp [hdec, hs, hn]
          | some uid => simp [hdec, hs, hn]

/-- **C9 counterexample.** A change-password request whose rate-limit bucket
is already full: the trace is token resolution, then the persistence lookup
of the current user, and only then the rate check that blocks the request —
so token resolution and a persistence lookup happen before the Rate Limiter
gate, and the blocked request has already reached that orchestrator work,
contradicting the claim.  (`get_current_user` runs as a framework dependency
before the handler body containing `check_rate_limit`.) -/
theorem gate_runs_after_dependency_work :
    changePasswordTrace toyBcrypt toyMac
        [("ip:password_change", [-10, -5, -1])] 0 "ip" [alice]
        (some tokAlice) "pw12345678"
      = [.tokenResolve, .dbLookup, .rateCheck]
    ∧ (changePasswordTrace toyBcrypt toyMac
        [("ip:password_change", [-10, -5, -1])] 0 "ip" [alice]
        (some tokAlice) "pw12345678").head? ≠ some .rateCheck := by
  decide

/-- **C9 (amended).** For register and login the rate-limit gate is the very
first operation of the request and a blocked request performs nothing else;
for change-password and theme-update the `current_user` dependency (token
resolution and the user lookup) runs before the gate, but the dependency does
no password verification, hashing, or persistence write, and when the gate
blocks such a request nothing beyond the dependency work and the gate itself
is performed. -/
theorem rate_gate_order (mac : JWTPayload → Nat) (B : BcryptPrim)
    (storeR storeL storeP storeT st1 st2 : RateStore) (now : Int)
    (ip : String) (db : Db) (cookie : Option JWToken)
    (email username pw : String) (u : User)
    (hR : (_check_rate_limit storeR now ip 3 60).1 = true)
    (hL : (_check_rate_limit storeL now ip 5 60).1 = true)
    (hok : get_current_user mac now db cookie = .ok u)
    (hP : (_check_rate_limit storeP now (ip ++ ":" ++ "password_change")
        3 60).1 = true)
    (hT : (_check_rate_limit storeT now ip 10 60).1 = true) :
    (registerTrace st1 now ip db email username).head? = some .rateCheck
    ∧ registerTrace storeR now ip db email username = [.rateCheck]
    ∧ (loginTrace st2 now ip db username).head? = some .rateCheck
    ∧ loginTrace storeL now ip db username = [.rateCheck]
    ∧ changePasswordTrace B mac storeP now ip db cookie pw
      = get_current_user_trace mac now cookie ++ [.rateCheck]
    ∧ themeUpdateTrace mac storeT now ip db cookie
      = get_current_user_trace mac now cookie ++ [.rateCheck]
    ∧ Ev.pwVerify ∉ get_current_user_trace mac now cookie
    ∧ Ev.pwHash ∉ get_current_user_trace mac now cookie := by
  obtain ⟨hnv, hnh, -⟩ := dep_trace_no_password_work mac now cookie
  refine ⟨rfl, ?_, rfl, ?_, ?_, ?_, hnv, hnh⟩
  · simp [registerTrace, hR]
  · simp [loginTrace, hL]
  · simp [changePasswordTrace, hok, hP]
  · simp [themeUpdateTrace, hok, hT]

/-- **C9 witness.** The amended ordering statement instantiated with full
buckets for each endpoint, the valid token of the active user `alice`, and
time 50. -/
theorem rate_gate_order_witness :
    (registerTrace [] 50 "ip" [alice] "e@x.com" "eve").head? = some .rateCheck
    ∧ registerTrace [("ip", [-1, -1, -1])] 50 "ip" [alice] "e@x.com" "eve"
      = [.rateCheck]
    ∧ (loginTrace [] 50 "ip" [alice] "eve").head? = some .rateCheck
    ∧ loginTrace [("ip", [-1, -1, -1, -1, -1])] 50 "ip" [alice] "eve"
      = [.rateCheck]
    ∧ changePasswordTrace toyBcrypt toyMac
        [("ip:password_change", [-1, -1, -1])] 50 "ip" [alice]
        (some tokAlice) "pw12345678"
      = get_current_user_trace toyMac 50 (some tokAlice) ++ [.rateCheck]
    ∧ themeUpdateTrace toyMac
        [("ip", [-1, -1, -1, -1, -1, -1, -1, -1, -1, -1])] 50 "ip" [alice]
        (some tokAlice)
      = get_current_user_trace toyMac 50 (some tokAlice) ++ [.rateCheck]
    ∧ Ev.pwVerify ∉ get_current_user_trace toyMac 50 (some tokAlice)
    ∧ Ev.pwHash ∉ get_current_user_trace toyMac 50 (some tokAlice) :=
  rate_gate_order toyMac toyBcrypt
    [("ip", [-1, -1, -1])] [("ip", [-1, -1, -1, -1, -1])]
    [("ip:password_change", [-1, -1, -1])]
    [("ip", [-1, -1, -1, -1, -1, -1, -1, -1, -1, -1])] [] [] 50 "ip" [alice]
    (some tokAlice) "e@x.com" "eve" "pw12345678" alice
    (by decide) (by decide) (by decide) (by decide) (by decide)

/-- **C10 counterexample.** Three register checks then three login checks by
one client within a minute: because register and login share the bare-IP
bucket, the three register timestamps count toward the login quota of five,
so the sixth call (the third login) is already limited and immediately
afterwards the shared record holds five timestamps — a further login is
limited at once.  The limiter is therefore at its limit (zero requests
remaining), not two requests from it as the claim's example states. -/
theorem shared_bucket_example_false :
    (epRun "ip" c10Calls []).1 = [false, false, false, false, false, true]
    ∧ (storeGet (epRun "ip" c10Calls []).2 "ip").length = 5
    ∧ (check_rate_limit (epRun "ip" c10Calls []).2 6 "ip" .loginEp).1
      = true := by
  decide

/-- **C10 (amended).** Register, login and theme-update all record under the
bare client identity, so they share one timestamp sequence, while only
change-password uses the per-endpoint key `ip + ":password_change"`; prior
register requests count toward the login quota: three register calls leave
the login limiter two requests from its limit of five, so of three
subsequent login calls within the window the first two succeed and the third
is limited. -/
theorem shared_bucket_key_composition (ip : String) :
    endpointKey ip .registerEp = ip
    ∧ endpointKey ip .loginEp = ip
    ∧ endpointKey ip .themeUpdateEp = ip
    ∧ endpointKey ip .passwordChangeEp = ip ++ ":" ++ "password_change"
    ∧ (epRun "ip" [(0, .registerEp), (1, .registerEp), (2, .registerEp)]
        []).1 = [false, false, false]
    ∧ (storeGet (epRun "ip"
        [(0, .registerEp), (1, .registerEp), (2, .registerEp)] []).2
        "ip").length = 3
    ∧ (epRun "ip" c10Calls []).1
      = [false, false, false, false, false, true] := by
  exact ⟨rfl, rfl, rfl, rfl, by decide, by decide, by decide⟩
